import Mathlib

/-!
Verification of the recommendation-matching and scoring pipeline of the
`oralhealth` repository, embedded from `ai_recommendations/services.py`.

Text values are modelled as lists of characters (`Str`), mirroring Python
strings as character sequences; floating-point score arithmetic is modelled
exactly over `ℚ` (every constant in the scorer is a decimal literal).
-/

unseal Rat.add Rat.sub Rat.mul Rat.inv List.merge List.mergeSort

namespace OralHealth

/-- Python strings are modelled as lists of characters. -/
abbrev Str := List Char

/-- Convert a Lean string literal to the character-list representation. -/
def str (s : String) : Str := s.data

/-- Python `s.lower()` (all keywords compared in the source are ASCII). -/
def lower (s : Str) : Str := s.map Char.toLower

/-- Helper for substring search: does `a` start the list `b`. -/
def isPref : Str → Str → Bool
  | [], _ => true
  | _ :: _, [] => false
  | a :: as, b :: bs => a == b && isPref as bs

/-- Python `needle in haystack` substring containment. -/
def pyIn : Str → Str → Bool
  | n, [] => isPref n []
  | n, h :: t => isPref n (h :: t) || pyIn n t

/-- Data model of `guidelines.models.Country` (the `name` column). -/
structure Country where
  name : Str
deriving DecidableEq

/-- Data model of `guidelines.models.Organization`. -/
structure Organization where
  name : Str
  country : Country
deriving DecidableEq

/-- Data model of `guidelines.models.Guideline` (the part the scorer reads). -/
structure Guideline where
  organization : Organization
deriving DecidableEq

/-- Data model of `guidelines.models.Recommendation` as read by the scorer:
`strength` and `evidence_quality` are nullable foreign keys, modelled by the
name of the referenced row when present. -/
structure Recommendation where
  title : Str
  text : Str
  target_population : Str
  strength : Option Str
  evidence_quality : Option Str
  guideline : Guideline
deriving DecidableEq

/-- Data model of `ai_recommendations.models.UserProfile` as read by
`services.py` (enum fields carry their stored string codes). -/
structure UserProfile where
  age_group : Str
  location_country : Str
  caries_risk : Str
  periodontal_status : Str
  fluoride_exposure : Str
  diet_sugar_intake : Str
  has_orthodontics : Bool
  has_dental_implants : Bool
  has_diabetes : Bool
  is_pregnant : Bool
  has_dry_mouth : Bool
deriving DecidableEq

/-- The `quality_scores` table of `_calculate_relevance_score`, in the
insertion order the Python `dict` iterates it. -/
def quality_scores : List (Str × ℚ) :=
  [(str "High", 3/10), (str "Moderate", 2/10), (str "Low", 1/10), (str "Very Low", 5/100)]

/-- The `strength_scores` table of `_calculate_relevance_score`. -/
def strength_scores : List (Str × ℚ) :=
  [(str "Strong", 25/100), (str "Conditional", 15/100), (str "Weak", 1/10)]

/-- The first-match-wins scan over a tier table: the first table key whose
lowercase form occurs in the lowercase name contributes its bonus, then the
loop breaks; no match contributes nothing. -/
def firstTierBonus : List (Str × ℚ) → Str → ℚ
  | [], _ => 0
  | (q, bonus) :: rest, name =>
      if pyIn (lower q) (lower name) then bonus else firstTierBonus rest name

/-- Evidence-quality bonus block of `_calculate_relevance_score`
(`if recommendation.evidence_quality:` guard, then the tier scan). -/
def evidence_quality_bonus (r : Recommendation) : ℚ :=
  match r.evidence_quality with
  | none => 0
  | some quality_name => firstTierBonus quality_scores quality_name

/-- Strength bonus block of `_calculate_relevance_score`. -/
def strength_bonus (r : Recommendation) : ℚ :=
  match r.strength with
  | none => 0
  | some strength_name => firstTierBonus strength_scores strength_name

/-- The `age_keywords` table of `_score_age_match`. -/
def score_age_keywords : List (Str × List Str) :=
  [(str "0-2", [str "infant", str "baby", str "toddler"]),
   (str "3-5", [str "preschool", str "young child"]),
   (str "6-12", [str "school age", str "child", str "pediatric"]),
   (str "13-17", [str "adolescent", str "teenager", str "teen"]),
   (str "18-30", [str "young adult"]),
   (str "31-50", [str "adult"]),
   (str "51-65", [str "middle-aged", str "adult"]),
   (str "65+", [str "elderly", str "senior", str "older adult"])]

/-- Embedding of `RecommendationMatcher._score_age_match`. -/
def score_age_match (p : UserProfile) (r : Recommendation) : ℚ :=
  let text_lower := lower (r.title ++ str " " ++ r.text)
  let keywords := (score_age_keywords.lookup p.age_group).getD []
  if keywords.any (fun kw => pyIn kw text_lower) then 2/10
  else
    let all_age_keywords := (score_age_keywords.map (fun kv => kv.2)).flatten
    let other_keywords := all_age_keywords.filter (fun kw => !(keywords.contains kw))
    if other_keywords.any (fun kw => pyIn kw text_lower && kw != str "adult") then -(1/10)
    else 0

/-- Embedding of `RecommendationMatcher._score_condition_match`. -/
def score_condition_match (p : UserProfile) (r : Recommendation) : ℚ :=
  let text_lower := lower (r.title ++ str " " ++ r.text)
  (if p.caries_risk = str "high" ∧
      ([str "high risk", str "caries", str "decay", str "fluoride"].any
        (fun term => pyIn term text_lower)) then 3/10 else 0)
  + (if (p.periodontal_status = str "gingivitis" ∨ p.periodontal_status = str "periodontitis") ∧
      ([str "periodontal", str "gum", str "gingivitis"].any
        (fun term => pyIn term text_lower)) then 3/10 else 0)
  + (if p.has_orthodontics ∧
      ([str "orthodontic", str "braces"].any (fun kw => pyIn kw text_lower)) then 25/100 else 0)
  + (if p.has_diabetes ∧
      ([str "diabetes", str "diabetic"].any (fun kw => pyIn kw text_lower)) then 25/100 else 0)
  + (if p.is_pregnant ∧
      ([str "pregnancy", str "pregnant"].any (fun kw => pyIn kw text_lower)) then 25/100 else 0)
  + (if p.has_dry_mouth ∧
      ([str "dry mouth", str "xerostomia"].any (fun kw => pyIn kw text_lower)) then 25/100 else 0)

/-- Embedding of `RecommendationMatcher._score_geographic_match`. -/
def score_geographic_match (p : UserProfile) (r : Recommendation) : ℚ :=
  let user_country := lower p.location_country
  let rec_country := lower r.guideline.organization.country.name
  if pyIn user_country rec_country || pyIn rec_country user_country then 3/10
  else
    let uk_countries := [str "united kingdom", str "england", str "scotland", str "wales"]
    if (uk_countries.any (fun c => pyIn c user_country)) &&
       (uk_countries.any (fun c => pyIn c rec_country)) then 25/100
    else
      let org_name := lower r.guideline.organization.name
      if [str "who", str "international", str "world"].any
          (fun term => pyIn term org_name) then 15/100
      else 0

/-- Embedding of `RecommendationMatcher._score_risk_alignment`. -/
def score_risk_alignment (p : UserProfile) (r : Recommendation) : ℚ :=
  let text_lower := lower (r.title ++ str " " ++ r.text)
  (if pyIn (str "fluoride") text_lower then
    (if p.fluoride_exposure = str "none" ∨ p.fluoride_exposure = str "water" then 2/10
     else if p.fluoride_exposure = str "professional" then 1/10
     else 0)
   else 0)
  + (if p.diet_sugar_intake = str "high" ∧
      ([str "diet", str "sugar", str "frequency", str "snacking"].any
        (fun term => pyIn term text_lower)) then 2/10 else 0)

/-- Embedding of `RecommendationMatcher._calculate_relevance_score`: the 0.1
base plus the six additive dimensions, capped at 1.0. -/
def calculate_relevance_score (p : UserProfile) (r : Recommendation) : ℚ :=
  min (1/10 + evidence_quality_bonus r + strength_bonus r
    + score_age_match p r + score_condition_match p r
    + score_geographic_match p r + score_risk_alignment p r) 1

/-- Priority-tier assignment of `AIRecommendationService.process_user_profile`
(lines 536 to 543), factored as a function of the score. -/
def priority_level (score : ℚ) : String :=
  if score ≥ 8/10 then "critical"
  else if score ≥ 6/10 then "high"
  else if score ≥ 4/10 then "medium"
  else "low"

/-- The descending-by-score comparison used when sorting scored candidates
(`key=lambda x: x[1], reverse=True`; a stable sort keeps ties in input
order, which `mergeSort` with this relation reproduces). -/
def scoreDescLe (x y : Recommendation × ℚ) : Bool := decide (y.2 ≤ x.2)

/-- Lines 48 to 50 of `find_matching_recommendations`: stable descending sort
of the scored candidates, truncated to the caller-supplied limit. -/
def sortScored (scored : List (Recommendation × ℚ)) (limit : Nat) :
    List (Recommendation × ℚ) :=
  (scored.mergeSort scoreDescLe).take limit

/-- Embedding of `RecommendationMatcher.find_matching_recommendations` on an
already-filtered queryset: score every candidate, keep those scoring above
0.1, sort descending and truncate. -/
def find_matching_recommendations (p : UserProfile) (queryset : List Recommendation)
    (limit : Nat) : List (Recommendation × ℚ) :=
  let scored_recommendations :=
    (queryset.map (fun r => (r, calculate_relevance_score p r))).filter
      (fun x => decide (x.2 > 1/10))
  sortScored scored_recommendations limit

/-- Python `str.split(c)` on a single separator character. -/
def splitOnChar (c : Char) : Str → List Str
  | [] => [[]]
  | h :: t =>
    match splitOnChar c t with
    | [] => if h == c then [[], []] else [[h]]
    | l :: ls => if h == c then [] :: l :: ls else (h :: l) :: ls

/-- Drop the characters satisfying `p` from both ends of a list. -/
def stripWhile (p : Char → Bool) (s : Str) : Str :=
  ((s.dropWhile p).reverse.dropWhile p).reverse

/-- The whitespace characters stripped by Python `str.strip()`. -/
def isSpaceChar (c : Char) : Bool :=
  c == ' ' || c == '\t' || c == '\n' || c == '\r' || c == '\x0b' || c == '\x0c'

/-- Python `line.strip()`. -/
def pyStrip (s : Str) : Str := stripWhile isSpaceChar s

/-- Python `action.strip(chars)`: strip any of the given characters from
both ends. -/
def pyStripChars (cs : Str) (s : Str) : Str := stripWhile (fun c => cs.contains c) s

/-- Python `sep.join(parts)`. -/
def joinWith (sep : Str) : List Str → Str
  | [] => []
  | [x] => x
  | x :: xs => x ++ sep ++ joinWith sep xs

/-- The six section keys of the structured analysis dictionary. -/
def sixSectionKeys : List String :=
  ["risk_assessment", "personalized_advice", "priority_actions",
   "preventive_strategies", "professional_care", "important_notes"]

/-- The section-marker scan of `_parse_ai_response`: the `elif` chain checks
the six fixed markers in this order and selects the first one contained in
the line. -/
def sectionMarkers : List (String × String) :=
  [("**RISK ASSESSMENT:**", "risk_assessment"),
   ("**PERSONALIZED ADVICE:**", "personalized_advice"),
   ("**PRIORITY ACTIONS:**", "priority_actions"),
   ("**PREVENTIVE STRATEGIES:**", "preventive_strategies"),
   ("**PROFESSIONAL CARE:**", "professional_care"),
   ("**IMPORTANT NOTES:**", "important_notes")]

/-- The `sections[current_section] += line + '\n'` update of
`_parse_ai_response`. -/
def addToSection (sections : List (String × Str)) (k : String) (line : Str) :
    List (String × Str) :=
  sections.map (fun kv => if kv.1 = k then (kv.1, kv.2 ++ line ++ [char 10]) else kv)
where
  /-- the newline character appended after each accumulated line -/
  char (n : Nat) : Char := Char.ofNat n

/-- One iteration of the line loop of `_parse_ai_response`: blank lines are
skipped, marker lines switch the current section, other lines accumulate
into the current section when one is active. -/
def parseStep (st : Option String × List (String × Str)) (rawLine : Str) :
    Option String × List (String × Str) :=
  let line := pyStrip rawLine
  if line = [] then st
  else
    match sectionMarkers.find? (fun m => pyIn (str m.1) line) with
    | some m => (some m.2, st.2)
    | none =>
      match st.1 with
      | some k => (st.1, addToSection st.2 k line)
      | none => st

/-- Embedding of `GeminiAIService._parse_ai_response`: scan the response
lines into the six sections, then return the dictionary with the full text
under `gemini_analysis` and each stripped section under its key. -/
def parse_ai_response (response_text : Str) : List (String × Str) :=
  let init := sixSectionKeys.map (fun k => (k, ([] : Str)))
  let result := (splitOnChar '\n' response_text).foldl parseStep (none, init)
  let sections := result.2
  let get (k : String) : Str := (sections.lookup k).getD []
  [("gemini_analysis", response_text),
   ("risk_assessment", pyStrip (get "risk_assessment")),
   ("personalized_advice", pyStrip (get "personalized_advice")),
   ("priority_actions", pyStrip (get "priority_actions")),
   ("preventive_strategies", pyStrip (get "preventive_strategies")),
   ("professional_care", pyStrip (get "professional_care")),
   ("important_notes", pyStrip (get "important_notes"))]

/-- Embedding of `GeminiAIService._generate_fallback_analysis`: a
deterministic six-section analysis driven by the profile's condition flags. -/
def generate_fallback_analysis (user_profile : UserProfile)
    (recommendations : List Recommendation) : List (String × Str) :=
  let risk_factors : List Str :=
    (if user_profile.caries_risk = str "high" then [str "high caries risk"] else [])
    ++ (if user_profile.periodontal_status = str "gingivitis" ∨
          user_profile.periodontal_status = str "periodontitis"
        then [str "gum disease"] else [])
    ++ (if user_profile.has_diabetes then [str "diabetes"] else [])
    ++ (if user_profile.diet_sugar_intake = str "high" then [str "high sugar diet"] else [])
  let risk_text : Str :=
    if risk_factors ≠ [] then
      str "Based on your profile, you have " ++ str (toString risk_factors.length)
        ++ str " identified risk factors: " ++ joinWith (str ", ") risk_factors ++ str "."
    else str "Your oral health risk appears to be low to moderate."
  let advice_points : List Str :=
    [str "Follow evidence-based recommendations from reputable dental organizations",
     str "Maintain regular oral hygiene practices",
     str "Consider professional dental care based on your risk factors"]
    ++ (if user_profile.caries_risk = str "high"
        then [str "Focus on fluoride use and dietary modifications"] else [])
    ++ (if user_profile.periodontal_status ≠ str "healthy"
        then [str "Pay special attention to gum health and interdental cleaning"] else [])
  let bullet_lines : Str :=
    joinWith (str "\n") (advice_points.map (fun point => str "• " ++ point))
  [("gemini_analysis",
      str "Analysis based on " ++ str (toString recommendations.length)
      ++ str " evidence-based recommendations.\n\n" ++ risk_text
      ++ str "\n\nKey recommendations:\n" ++ bullet_lines),
   ("risk_assessment", risk_text),
   ("personalized_advice", bullet_lines),
   ("priority_actions",
      str "Review the evidence-based recommendations below and consult with a dental professional for personalized guidance."),
   ("preventive_strategies",
      str "Follow standard oral hygiene practices and address specific risk factors identified in your profile."),
   ("professional_care",
      str "Regular dental check-ups are recommended, with frequency based on your risk assessment."),
   ("important_notes",
      str "This analysis is based on general guidelines. Always consult with a qualified dental professional for personalized care.")]

/-- Embedding of `GeminiAIService.analyze_recommendations`. The external
generative call is modelled by its outcome: a response text, or an
exception (`Except.error`) carrying the exception message. A missing API
key and any exception from the external call both produce the deterministic
fallback; no exception propagates. -/
def analyze_recommendations (api_key : Option String) (external_response : Except Str Str)
    (user_profile : UserProfile) (recommendations : List Recommendation) :
    List (String × Str) :=
  match api_key with
  | none => generate_fallback_analysis user_profile recommendations
  | some _ =>
    match external_response with
    | Except.ok response_text => parse_ai_response response_text
    | Except.error _ => generate_fallback_analysis user_profile recommendations

/-- Data model of `ai_recommendations.models.RecommendationMatch` as created
by the orchestrator. -/
structure RecommendationMatch where
  recommendation : Recommendation
  relevance_score : ℚ
  priority_level : String
deriving DecidableEq

/-- Data model of `ai_recommendations.models.AIRecommendationSession` as
written by the orchestrator. -/
structure AIRecommendationSession where
  status : String
  error_message : Str
  gemini_analysis : Str
  personalized_advice : Str
  risk_assessment : Str
  priority_actions : List Str
  created_matches : List RecommendationMatch
  processing_time : ℚ
deriving DecidableEq

/-- The priority-actions extraction of `process_user_profile`: split on
newlines, keep nonblank lines, strip leading and trailing bullet markers,
and keep at most five entries. -/
def extract_priority_actions (priority_text : Str) : List Str :=
  (((splitOnChar '\n' priority_text).filter (fun action => pyStrip action ≠ [])).map
    (fun action => pyStripChars (str "• -") action)).take 5

/-- Embedding of `AIRecommendationService.process_user_profile`. The
surrounding environment is modelled by: the configured API key, the
filtered candidate queryset, the outcome of the external narrative call,
an optional exception raised by any other pipeline step (database writes,
scoring), and the elapsed wall-clock time. The result is the saved
session, the exception re-raised to the caller (if any), and the ordered
log of status values assigned to the session during the run. -/
def process_user_profile (user_profile : UserProfile) (api_key : Option String)
    (queryset : List Recommendation) (external_response : Except Str Str)
    (pipeline_error : Option Str) (elapsed : ℚ) :
    AIRecommendationSession × Option Str × List String :=
  let session0 : AIRecommendationSession :=
    { status := "processing", error_message := [], gemini_analysis := [],
      personalized_advice := [], risk_assessment := [], priority_actions := [],
      created_matches := [], processing_time := 0 }
  match pipeline_error with
  | some e =>
    ({ session0 with status := "error", error_message := e, processing_time := elapsed },
     some e, ["processing", "error"])
  | none =>
    let scored_recommendations := find_matching_recommendations user_profile queryset 15
    let match_records : List RecommendationMatch := scored_recommendations.map (fun x =>
      { recommendation := x.1, relevance_score := x.2,
        priority_level := priority_level x.2 })
    let recommendations := scored_recommendations.map (fun x => x.1)
    let ai_analysis :=
      analyze_recommendations api_key external_response user_profile recommendations
    let getA (k : String) : Str := (ai_analysis.lookup k).getD []
    ({ session0 with
        gemini_analysis := getA "gemini_analysis",
        personalized_advice := getA "personalized_advice",
        risk_assessment := getA "risk_assessment",
        priority_actions := extract_priority_actions (getA "priority_actions"),
        created_matches := match_records,
        status := "completed",
        processing_time := elapsed },
     none, ["processing", "completed"])

/-- Position of a status value along the pending, processing, terminal
ordering (completed and error are both terminal). -/
def statusRank (s : String) : Nat :=
  if s = "pending" then 0 else if s = "processing" then 1 else 2

/-- The concrete profile of example scenario A of the specification:
an 18-30 year old in the United Kingdom with high caries risk and no other
active flag or enum trigger. -/
def profileA : UserProfile :=
  { age_group := str "18-30", location_country := str "United Kingdom",
    caries_risk := str "high", periodontal_status := str "healthy",
    fluoride_exposure := str "toothpaste", diet_sugar_intake := str "moderate",
    has_orthodontics := false, has_dental_implants := false,
    has_diabetes := false, is_pregnant := false, has_dry_mouth := false }

/-- The concrete candidate of example scenario A: a strong, high-evidence UK
fluoride recommendation. -/
def recA : Recommendation :=
  { title := str "Fluoride use for high risk adults in the UK",
    text := str "", target_population := str "",
    strength := some (str "Strong"), evidence_quality := some (str "High"),
    guideline :=
      { organization :=
          { name := str "NICE",
            country := { name := str "United Kingdom" } } } }

/-! Supporting lemmas about the scoring components. -/

theorem firstTierBonus_nonneg (table : List (Str × ℚ))
    (h : ∀ x ∈ table, 0 ≤ x.2) (name : Str) : 0 ≤ firstTierBonus table name := by
  induction table with
  | nil => simp [firstTierBonus]
  | cons hd tl ih =>
    obtain ⟨q, b⟩ := hd
    simp only [firstTierBonus]
    split
    · exact h (q, b) (by simp)
    · exact ih (fun x hx => h x (by simp [hx]))

theorem evidence_quality_bonus_nonneg (r : Recommendation) :
    0 ≤ evidence_quality_bonus r := by
  unfold evidence_quality_bonus
  cases r.evidence_quality with
  | none => norm_num
  | some q => exact firstTierBonus_nonneg _ (by decide) q

theorem strength_bonus_nonneg (r : Recommendation) : 0 ≤ strength_bonus r := by
  unfold strength_bonus
  cases r.strength with
  | none => norm_num
  | some q => exact firstTierBonus_nonneg _ (by decide) q

theorem score_age_match_lower_bound (p : UserProfile) (r : Recommendation) :
    -(1/10) ≤ score_age_match p r := by
  simp only [score_age_match]
  split_ifs <;> norm_num

theorem score_condition_match_nonneg (p : UserProfile) (r : Recommendation) :
    0 ≤ score_condition_match p r := by
  simp only [score_condition_match]
  split_ifs <;> norm_num

theorem score_geographic_match_nonneg (p : UserProfile) (r : Recommendation) :
    0 ≤ score_geographic_match p r := by
  simp only [score_geographic_match]
  split_ifs <;> norm_num

theorem score_risk_alignment_nonneg (p : UserProfile) (r : Recommendation) :
    0 ≤ score_risk_alignment p r := by
  simp only [score_risk_alignment]
  split_ifs <;> norm_num

/-- C1: for every user profile and recommendation record, the relevance
score computed by the scorer lies in the closed interval from 0 to 1: the
sum of the 0.1 base, the tier bonuses, the condition, geographic and risk
bonuses and the single possible 0.1 age-mismatch penalty, capped by the
minimum with 1, is never below 0 and never above 1. -/
theorem C1_score_in_unit_interval (p : UserProfile) (r : Recommendation) :
    0 ≤ calculate_relevance_score p r ∧ calculate_relevance_score p r ≤ 1 := by
  have h1 := evidence_quality_bonus_nonneg r
  have h2 := strength_bonus_nonneg r
  have h3 := score_age_match_lower_bound p r
  have h4 := score_condition_match_nonneg p r
  have h5 := score_geographic_match_nonneg p r
  have h6 := score_risk_alignment_nonneg p r
  unfold calculate_relevance_score
  exact ⟨le_min (by linarith) (by norm_num), min_le_right _ _⟩

/-! Substring containment facts used to analyse the evidence-quality scan. -/

theorem isPref_iff (a : Str) : ∀ b : Str, isPref a b = true ↔ ∃ t, b = a ++ t := by
  induction a with
  | nil => intro b; simp [isPref]
  | cons c cs ih =>
    intro b
    cases b with
    | nil => simp [isPref]
    | cons d ds =>
      simp only [isPref, Bool.and_eq_true, beq_iff_eq, ih, List.cons_append,
        List.cons.injEq]
      constructor
      · rintro ⟨rfl, t, rfl⟩; exact ⟨t, rfl, rfl⟩
      · rintro ⟨t, rfl, rfl⟩; exact ⟨rfl, t, rfl⟩

theorem pyIn_iff (a : Str) : ∀ b : Str, pyIn a b = true ↔ ∃ l t, b = l ++ a ++ t := by
  intro b
  induction b with
  | nil =>
    simp only [pyIn, isPref_iff]
    constructor
    · rintro ⟨t, ht⟩; exact ⟨[], t, by simpa using ht⟩
    · rintro ⟨l, t, ht⟩
      rw [List.append_assoc] at ht
      rcases List.append_eq_nil.mp ht.symm with ⟨rfl, h2⟩
      exact ⟨t, by simpa using h2.symm⟩
  | cons h tl ih =>
    simp only [pyIn, Bool.or_eq_true, isPref_iff, ih]
    constructor
    · rintro (⟨t, heq⟩ | ⟨l, t, heq⟩)
      · exact ⟨[], t, by simpa using heq⟩
      · exact ⟨h :: l, t, by simp [heq]⟩
    · rintro ⟨l, t, heq⟩
      cases l with
      | nil => exact Or.inl ⟨t, by simpa using heq⟩
      | cons x xs =>
        rw [List.cons_append, List.cons_append, List.cons.injEq] at heq
        exact Or.inr ⟨xs, t, by simp [heq.2]⟩

theorem pyIn_trans {a b c : Str} (h1 : pyIn a b = true) (h2 : pyIn b c = true) :
    pyIn a c = true := by
  rw [pyIn_iff] at h1 h2 ⊢
  obtain ⟨l1, t1, rfl⟩ := h1
  obtain ⟨l2, t2, rfl⟩ := h2
  exact ⟨l2 ++ l1, t1 ++ t2, by simp⟩

/-- C2: the evidence-quality scan checks the tiers in the order High,
Moderate, Low, Very Low and stops at the first containment match; because
the string "very low" contains "low", the Low tier fires first, so a name
containing "very low" receives the 0.1 bonus and the 0.05 tier of the
code's own weight table is unreachable for every possible name. -/
theorem C2_very_low_tier_unreachable :
    firstTierBonus quality_scores (str "Very Low") = 1/10 ∧
    ∀ name : Str, firstTierBonus quality_scores name ≠ 5/100 := by
  refine ⟨by decide, ?_⟩
  intro name
  simp only [quality_scores, firstTierBonus]
  split_ifs with h1 h2 h3 h4 <;> try norm_num
  exact absurd (pyIn_trans (by decide) h4) h3

/-- C3: priority-tier assignment is a total deterministic function of the
score with no gaps or overlaps: critical exactly when the score is at
least 0.8, high exactly on scores in the interval from 0.6 up to but not
including 0.8, medium exactly from 0.4 up to but not including 0.6, and
low exactly below 0.4. -/
theorem C3_priority_tier_characterisation (s : ℚ) :
    (priority_level s = "critical" ↔ 8/10 ≤ s) ∧
    (priority_level s = "high" ↔ 6/10 ≤ s ∧ s < 8/10) ∧
    (priority_level s = "medium" ↔ 4/10 ≤ s ∧ s < 6/10) ∧
    (priority_level s = "low" ↔ s < 4/10) := by
  unfold priority_level
  split_ifs with h1 h2 h3 <;>
    refine ⟨?_, ?_, ?_, ?_⟩ <;> simp_all <;>
    first
      | linarith
      | (intro h; linarith)

/-- C4: on the scenario-A profile and candidate, the component bonuses are
0.3 for evidence, 0.25 for strength, 0.3 for the caries-condition match
and 0.3 for the geographic match, the raw sum together with the 0.1 base
exceeds 1, the capped score is exactly 1, and the assigned tier is
critical. -/
theorem C4_scenario_A :
    evidence_quality_bonus recA = 3/10 ∧
    strength_bonus recA = 25/100 ∧
    score_age_match profileA recA = 0 ∧
    score_condition_match profileA recA = 3/10 ∧
    score_geographic_match profileA recA = 3/10 ∧
    score_risk_alignment profileA recA = 0 ∧
    1 < 1/10 + evidence_quality_bonus recA + strength_bonus recA
      + score_age_match profileA recA + score_condition_match profileA recA
      + score_geographic_match profileA recA + score_risk_alignment profileA recA ∧
    calculate_relevance_score profileA recA = 1 ∧
    priority_level (calculate_relevance_score profileA recA) = "critical" := by
  decide

/-! Supporting lemmas about the descending stable sort. -/

theorem scoreDescLe_trans (a b c : Recommendation × ℚ)
    (hab : scoreDescLe a b = true) (hbc : scoreDescLe b c = true) :
    scoreDescLe a c = true := by
  simp only [scoreDescLe, decide_eq_true_eq] at *
  exact le_trans hbc hab

theorem scoreDescLe_total (a b : Recommendation × ℚ) :
    (scoreDescLe a b || scoreDescLe b a) = true := by
  simp only [scoreDescLe, Bool.or_eq_true, decide_eq_true_eq]
  exact le_total b.2 a.2

theorem mergeSort_filter_score (scored : List (Recommendation × ℚ)) (s : ℚ) :
    (scored.mergeSort scoreDescLe).filter (fun x => decide (x.2 = s)) =
      scored.filter (fun x => decide (x.2 = s)) := by
  have hsub : (scored.filter (fun x => decide (x.2 = s))).Sublist
      (scored.mergeSort scoreDescLe) := by
    apply List.sublist_mergeSort scoreDescLe_trans scoreDescLe_total
    · apply List.pairwise_of_forall_mem_list
      intro a ha b hb
      have ha2 := (List.mem_filter.mp ha).2
      have hb2 := (List.mem_filter.mp hb).2
      simp only [decide_eq_true_eq] at ha2 hb2
      simp [scoreDescLe, ha2, hb2]
    · exact List.filter_sublist scored
  have hAp : (scored.filter (fun x => decide (x.2 = s))).filter
        (fun x => decide (x.2 = s))
      = scored.filter (fun x => decide (x.2 = s)) := by
    rw [List.filter_eq_self]
    intro a ha
    exact (List.mem_filter.mp ha).2
  have hstep := hsub.filter (fun x => decide (x.2 = s))
  rw [hAp] at hstep
  have hperm : ((scored.mergeSort scoreDescLe).filter (fun x => decide (x.2 = s))).Perm
      (scored.filter (fun x => decide (x.2 = s))) :=
    (List.mergeSort_perm scored scoreDescLe).filter _
  exact (hstep.eq_of_length hperm.length_eq.symm).symm

/-- C5: the ranked list is sorted in non-increasing order of score, its
length never exceeds the caller-supplied limit, and for every score value
the candidates carrying that score appear in the same relative order as in
the filtered candidate list before sorting (stable descending sort). -/
theorem C5_stable_descending_truncated (scored : List (Recommendation × ℚ)) (limit : Nat) :
    (sortScored scored limit).Pairwise (fun x y => y.2 ≤ x.2) ∧
    (sortScored scored limit).length ≤ limit ∧
    ∀ s : ℚ, ((sortScored scored limit).filter (fun x => decide (x.2 = s))).Sublist
      (scored.filter (fun x => decide (x.2 = s))) := by
  unfold sortScored
  refine ⟨?_, List.length_take_le _ _, ?_⟩
  · have h := List.sorted_mergeSort scoreDescLe_trans scoreDescLe_total scored
    have h2 : (scored.mergeSort scoreDescLe).Pairwise (fun x y => y.2 ≤ x.2) := by
      refine h.imp ?_
      intro a b hab
      simpa [scoreDescLe] using hab
    exact List.Pairwise.sublist (List.take_sublist _ _) h2
  · intro s
    have hstep := (List.take_sublist limit (scored.mergeSort scoreDescLe)).filter
      (fun x => decide (x.2 = s))
    rwa [mergeSort_filter_score scored s] at hstep

/-- C6: a candidate whose computed relevance score is at most 0.1 is
excluded before ranking: every pair in the returned match list has a score
strictly above 0.1. -/
theorem C6_low_scores_excluded (p : UserProfile) (queryset : List Recommendation)
    (limit : Nat) (r : Recommendation) (s : ℚ)
    (h : (r, s) ∈ find_matching_recommendations p queryset limit) : 1/10 < s := by
  unfold find_matching_recommendations sortScored at h
  have h1 : (r, s) ∈ (queryset.map (fun r => (r, calculate_relevance_score p r))).filter
      (fun x => decide (x.2 > 1/10)) := by
    have h2 := (List.take_sublist _ _).mem h
    exact ((List.mergeSort_perm _ _).mem_iff).mp h2
  have h3 := (List.mem_filter.mp h1).2
  simpa using h3

/-- Witness: the scenario-A candidate appears in the matcher output with
score 1, which is above the 0.1 discard threshold. -/
theorem C6_low_scores_excluded_witness :
    ((recA, (1:ℚ)) ∈ find_matching_recommendations profileA [recA] 5) ∧ 1/10 < (1:ℚ) :=
  ⟨by decide, C6_low_scores_excluded profileA [recA] 5 recA 1 (by decide)⟩

/-- C7: whichever path produced it, the narrative analysis contains all six
section keys, each mapped to a (possibly empty) string: for every response
text the parser output has every key, and for every profile and
recommendation list so does the deterministic fallback. -/
theorem C7_six_sections_always_present (response_text : Str) (p : UserProfile)
    (recommendations : List Recommendation) (k : String) (hk : k ∈ sixSectionKeys) :
    ((parse_ai_response response_text).lookup k).isSome = true ∧
    ((generate_fallback_analysis p recommendations).lookup k).isSome = true := by
  simp only [sixSectionKeys, List.mem_cons, List.not_mem_nil, or_false] at hk
  rcases hk with rfl | rfl | rfl | rfl | rfl | rfl <;> exact ⟨rfl, rfl⟩

/-- Witness: the six-key guarantee instantiated on a marker-free response
text and the scenario-A profile with an empty recommendation list. -/
theorem C7_six_sections_always_present_witness :
    ("risk_assessment" ∈ sixSectionKeys) ∧
    (((parse_ai_response (str "no markers here")).lookup "risk_assessment").isSome = true ∧
     ((generate_fallback_analysis profileA []).lookup "risk_assessment").isSome = true) :=
  ⟨by decide,
   C7_six_sections_always_present (str "no markers here") profileA [] "risk_assessment"
     (by decide)⟩

/-- C8: when the external narrative call raises, `analyze_recommendations`
returns exactly the deterministic fallback for the profile instead of
propagating, and the orchestrated session still finishes with status
completed and no exception reaches the caller. -/
theorem C8_external_failure_recovered (p : UserProfile) (recs : List Recommendation)
    (key : String) (queryset : List Recommendation) (e : Str) (elapsed : ℚ) :
    analyze_recommendations (some key) (Except.error e) p recs
      = generate_fallback_analysis p recs ∧
    (process_user_profile p (some key) queryset (Except.error e) none elapsed).1.status
      = "completed" ∧
    (process_user_profile p (some key) queryset (Except.error e) none elapsed).2.1 = none :=
  ⟨rfl, rfl, rfl⟩

/-- C9: any exception raised by a pipeline step other than the external
call marks the session with status error, stores the exception's message,
records the elapsed processing time, and re-raises the same exception to
the caller. -/
theorem C9_pipeline_error_marks_and_reraises (p : UserProfile) (api_key : Option String)
    (queryset : List Recommendation) (external_response : Except Str Str)
    (e : Str) (elapsed : ℚ) :
    (process_user_profile p api_key queryset external_response (some e) elapsed).1.status
      = "error" ∧
    (process_user_profile p api_key queryset external_response (some e) elapsed).1.error_message
      = e ∧
    (process_user_profile p api_key queryset external_response (some e) elapsed).1.processing_time
      = elapsed ∧
    (process_user_profile p api_key queryset external_response (some e) elapsed).2.1 = some e :=
  ⟨rfl, rfl, rfl, rfl⟩

/-- C10: in every run of the orchestrator the session's status write log is
processing followed by exactly one terminal value, so the status only ever
moves forward along the pending, processing, terminal ordering and a
terminal status is never overwritten within the run. -/
theorem C10_status_monotone (p : UserProfile) (api_key : Option String)
    (queryset : List Recommendation) (external_response : Except Str Str)
    (pipeline_error : Option Str) (elapsed : ℚ) :
    ((process_user_profile p api_key queryset external_response pipeline_error elapsed).2.2
        = ["processing", "completed"] ∨
     (process_user_profile p api_key queryset external_response pipeline_error elapsed).2.2
        = ["processing", "error"]) ∧
    (process_user_profile p api_key queryset external_response pipeline_error elapsed).2.2.Pairwise
      (fun a b => statusRank a < statusRank b) := by
  cases pipeline_error with
  | none =>
    refine ⟨Or.inl rfl, ?_⟩
    have h : (process_user_profile p api_key queryset external_response none elapsed).2.2
        = ["processing", "completed"] := rfl
    rw [h]; decide
  | some e =>
    refine ⟨Or.inr rfl, ?_⟩
    have h : (process_user_profile p api_key queryset external_response (some e) elapsed).2.2
        = ["processing", "error"] := rfl
    rw [h]; decide

end OralHealth
